import Mathlib

/-!
Formal model of the Urban Jungle system's dice-resolution, initiative-ordering and
condition-bookkeeping subsystems, translated from the dice-roller module
(`src/unnamed/part_000`) and from `src/module/urbanjungle.js`.

Conventions of the embedding:
* Die results ("faces") and die counts are `Nat`; the host's randomness source is
  modelled by passing the sampled face sequence as an explicit argument.
* The host's dice-pool evaluator is modelled by its documented semantics: the pool
  modifier written as `cs` + greater-than + N counts the results that are strictly
  greater than N, and `kh1` keeps the single highest result.
* The roll formula string built by `formRoll` is modelled as the list of its die
  terms, in the order in which the source appends them to the string.
* Values that JavaScript may hold as either a number or a string (the stored
  `initType` setting) are modelled by the sum type `JSVal`, with JavaScript's
  truthiness, `parseInt` and strict-equality behaviour made explicit.
* Distances are `ℚ` and the host's `canvas.grid.measureDistance` is an explicit
  function argument.
-/

/-- Summary data of a target-number roll: the `TNData` typedef of the dice module. -/
structure TNData where
  successes : Nat
  ties : Nat
deriving DecidableEq, Repr

/-- Result classification selected by `flavorStringTN`: which of the four result
strings (success with its count, botch, tie with its count, failure) the function
builds.  The HTML/colour/localization wrapping of the source is presentation only
and is not modelled. -/
inductive TNResult where
  | success (successes : Nat)
  | botch
  | tie (ties : Nat)
  | failure
deriving DecidableEq, Repr

/-- Flavor of a roll message: either a target-number classification or, for
highest-mode rolls, the highest face together with the botch-colour flag. -/
inductive RollFlavor where
  | tn (r : TNResult)
  | high (highest : Nat) (botched : Bool)
deriving DecidableEq, Repr

/-- One loop of `formRoll`: `for (i = 0; i < n; i++) rollstring += "1d<size>,"`,
modelled at the level of the list of appended die terms. -/
def pushDice : Nat → Nat → List Nat → List Nat
  | 0, _, acc => acc
  | Nat.succ m, size, acc => pushDice m size (acc ++ [size])

/-- Model of `formRoll(d12, d10, d8, d6, d4)`: the sequence of die sizes appearing
in the built roll string, in the order the source appends them. -/
def formRoll (d12 d10 d8 d6 d4 : Nat) : List Nat :=
  pushDice d4 4 (pushDice d6 6 (pushDice d8 8 (pushDice d10 10 (pushDice d12 12 []))))

/-- Accumulator of the `roll.terms[0].results.forEach` loop of `rollTargetNumber`. -/
structure TNScan where
  ties : Nat
  highest : Nat
  hasOne : Bool
deriving DecidableEq, Repr

/-- The `forEach` loop of `rollTargetNumber`/`copyToRollTN`: for each result `x`,
`if (x.result == tni) ties++; if (x.result > highest) highest = x.result;
if (x.result === 1) hasOne = true`. -/
def tnLoop (tni : Nat) (s : TNScan) : List Nat → TNScan
  | [] => s
  | x :: rest =>
      tnLoop tni
        { ties := if x = tni then s.ties + 1 else s.ties
          highest := if x > s.highest then x else s.highest
          hasOne := s.hasOne || (x == 1) } rest

/-- The host evaluator's success total for a pool with the count-success modifier
written with a greater-than comparison and target `tni`: the number of results
strictly greater than `tni` (this is `roll.total` in `rollTargetNumber`). -/
def countSuccesses (tni : Nat) (faces : List Nat) : Nat :=
  faces.countP (fun f => decide (tni < f))

/-- Model of `flavorStringTN(successes, ties, botched, label)`: the classification
whose message string the function builds, by the source's branch order. -/
def flavorStringTN (successes ties : Nat) (botched : Bool) : TNResult :=
  if successes > 0 then TNResult.success successes
  else if botched then TNResult.botch
  else if ties > 0 then TNResult.tie ties
  else TNResult.failure

/-- Model of `flavorStringHighest(highest, label)`: the highest face, with the
botch colour chosen exactly when not `highest > 1`. -/
def flavorStringHighest (highest : Nat) : RollFlavor :=
  RollFlavor.high highest (decide (¬ highest > 1))

/-- Model of the `DiceReturn` typedef: the rolled face sequence
(`roll.terms[0].results`), the `highest` field, the `tnData` field, the message's
flavor classification, and the message's `hasOne` flag. -/
structure DiceReturn where
  results : List Nat
  highest : Nat
  tnData : Option TNData
  flavor : RollFlavor
  hasOne : Bool
deriving DecidableEq, Repr

/-- Model of `rollTargetNumber(tni, d12, d10, d8, d6, d4, ...)`.  `faces` is the
face sequence drawn by the host for the pool built by `formRoll`; an empty pool
returns `null` before any roll or message is made. -/
def rollTargetNumber (tni d12 d10 d8 d6 d4 : Nat) (faces : List Nat) : Option DiceReturn :=
  let pool := formRoll d12 d10 d8 d6 d4
  if pool.length = 0 then none
  else
    let successes := countSuccesses tni faces
    let scan := tnLoop tni ⟨0, 0, false⟩ faces
    some
      { results := faces
        highest := scan.highest
        tnData := some ⟨successes, scan.ties⟩
        flavor := RollFlavor.tn (flavorStringTN successes scan.ties (scan.highest == 1))
        hasOne := scan.hasOne }

/-- Model of `rollHighest(d12, d10, d8, d6, d4, ...)`: `kh1` keeps the maximum
face as `roll.total`; `hasOne` is `results.some(x => x.result === 1)`; an empty
pool returns `null`. -/
def rollHighest (d12 d10 d8 d6 d4 : Nat) (faces : List Nat) : Option DiceReturn :=
  let pool := formRoll d12 d10 d8 d6 d4
  if pool.length = 0 then none
  else
    let highest := faces.foldl (fun a x => if a < x then x else a) 0
    some
      { results := faces
        highest := highest
        tnData := none
        flavor := flavorStringHighest highest
        hasOne := faces.any (fun x => x == 1) }

/-- One term of the formula built by the copy helpers: either a numeric literal
(a copied die result) or a fresh die of a given size (`roll.terms[0].terms[i]`,
the original "1d<size>" term). -/
inductive CopyTerm where
  | lit (value : Nat)
  | die (size : Nat)
deriving DecidableEq, Repr

/-- Model of `copyDicePoolResult(roll)`: every prior result is copied into the new
formula as a numeric literal, in sequence order. -/
def copyDicePoolResult (results : List Nat) : List CopyTerm :=
  results.map CopyTerm.lit

/-- The `forEach` loop of `copyRerollHighestOne`, carrying the `onefound` flag:
the first result equal to 1 is emitted as the original die term (a fresh die of
the same size), every other result as its numeric literal. -/
def copyRerollAux : Bool → List (Nat × Nat) → List CopyTerm
  | _, [] => []
  | onefound, (size, result) :: rest =>
      if !onefound && result == 1 then CopyTerm.die size :: copyRerollAux true rest
      else CopyTerm.lit result :: copyRerollAux onefound rest

/-- Model of `copyRerollHighestOne(roll)`.  `dice` pairs each pool die's size
(`roll.terms[0].terms[i]`) with its result (`roll.terms[0].results[i]`), in
sequence order, for a prior roll whose pool terms are dice as built by
`formRoll`. -/
def copyRerollHighestOne (dice : List (Nat × Nat)) : List CopyTerm :=
  copyRerollAux false dice

/-- Model of the `initResult` computation in `urbanjungleCombat.rollInitiative`:
`tnData.successes > 0 ? successes.toString() : (tnData.ties ? "T" :
(highest === 1 ? "B" : "F"))`, and the empty string when `tnData` is absent. -/
def initiativeResult (tnData : Option TNData) (highest : Nat) : String :=
  match tnData with
  | some td =>
      if td.successes > 0 then toString td.successes
      else if td.ties != 0 then "T"
      else if highest == 1 then "B" else "F"
  | none => ""

/-- Display code corresponding to each `flavorStringTN` classification, for
comparing the persisted initiative result code with the section 4.1
classification. -/
def resultCode : TNResult → String
  | TNResult.success n => toString n
  | TNResult.botch => "B"
  | TNResult.tie _ => "T"
  | TNResult.failure => "F"

/-- A JavaScript value that may be a number or a string, as stored for the
`initType` combat setting. -/
inductive JSVal where
  | num (n : Int)
  | str (s : String)
deriving DecidableEq, Repr

/-- JavaScript truthiness of a `JSVal`: the number 0 and the empty string are
falsy. -/
def JSVal.truthy : JSVal → Bool
  | JSVal.num n => n != 0
  | JSVal.str s => s != ""

/-- JavaScript `parseInt` on a `JSVal`; `none` models `NaN`. -/
def JSVal.parseIntVal : JSVal → Option Int
  | JSVal.num n => some n
  | JSVal.str s => s.toInt?

/-- JavaScript strict equality of a `JSVal` against a number: a string is never
strictly equal to a number. -/
def JSVal.strictEqInt : JSVal → Int → Bool
  | JSVal.num n, m => n == m
  | JSVal.str _, _ => false

/-- `CONST.TOKEN_DISPOSITIONS.FRIENDLY` in the host. -/
def friendlyDisposition : Int := 1

/-- The data of a combatant that the initiative functions read: presence of a
linked actor, the actor's `hasPlayerOwner` flag, presence of a token, and the
token's `data.disposition` (absent when the token or its data is missing). -/
structure Combatant where
  hasActor : Bool
  hasPlayerOwner : Bool
  hasToken : Bool
  disposition : Option Int
deriving DecidableEq, Repr

/-- The combat settings blob written by `urbanjungleCombatTrackerConfig`:
`{sideBased, initType, skipDefeated, manualTN}`.  Absent fields are `none`. -/
structure CombatSettings where
  sideBased : Bool
  initType : Option JSVal
  skipDefeated : Bool
  manualTN : Option ℚ
deriving DecidableEq, Repr

/-- Model of `urbanjungleCombat.getInitiativeGroup(combatant, settings)`.  The
guard is `combatant?.actor && combatant?.token && settings?.initType` (JavaScript
truthiness), the switch is on `parseInt(settings.initType)`, and every fall-through
returns the sentinel -1.  The line for `initType` 5 reads `side == side == 0` in
the source, which JavaScript parses as `(side == side) == 0`, i.e. `true == 0`,
i.e. always false; it is transcribed faithfully below. -/
def getInitiativeGroup (combatant : Option Combatant) (settings : Option CombatSettings) : Int :=
  match combatant, settings with
  | some c, some s =>
      match s.initType with
      | some v =>
          if c.hasActor && c.hasToken && v.truthy then
            let it := v.parseIntVal
            if it = some 0 ∨ it = some 1 then
              let side : Int := if c.hasPlayerOwner then 1 else 0
              if it = some 0 then (if side = 1 then 2 else 1)
              else (if side = 0 then 2 else 1)
            else if it = some 2 ∨ it = some 3 then
              let side : Int :=
                if c.hasPlayerOwner || (c.disposition == some friendlyDisposition) then 1 else 0
              if it = some 2 then (if side = 1 then 2 else 1)
              else (if side = 0 then 2 else 1)
            else if it = some 4 ∨ it = some 5 then
              let side : Int :=
                if c.hasPlayerOwner then 1
                else if c.disposition == some friendlyDisposition then 2 else 0
              if it = some 4 then (if side = 1 then 3 else if side = 2 then 2 else 1)
              else
                (if (if side = side then (1 : Int) else 0) = 0 then 3
                 else if side = 1 then 2 else 1)
            else -1
          else -1
      | none => -1
  | _, _ => -1

/-- The `otherSide` filter of `getInitiativeTN`: for `initType` strictly equal to
the numbers 0 or 1, combatants whose `actor?.hasPlayerOwner` is not strictly equal
to this combatant's (an absent actor gives `undefined`, which is never strictly
equal to a boolean); otherwise, combatants whose player-or-friendly flag differs
from this combatant's. -/
def otherSideOf (c : Combatant) (v : JSVal) (l : List Combatant) : List Combatant :=
  if v.strictEqInt 0 || v.strictEqInt 1 then
    l.filter (fun x => !(x.hasActor && (x.hasPlayerOwner == c.hasPlayerOwner)))
  else
    l.filter (fun x =>
      ((x.hasActor && x.hasPlayerOwner) || (x.hasToken && (x.disposition == some friendlyDisposition)))
        != (c.hasPlayerOwner || (c.disposition == some friendlyDisposition)))

/-- Model of `urbanjungleCombat.getDistanceToClosestOther(combatant,
othercombatants)`: the minimum measured distance to another combatant with a
token, starting from the sentinel 10000. -/
def getDistanceToClosestOther (dist : Combatant → Combatant → ℚ) (combatant : Combatant)
    (others : List Combatant) : ℚ :=
  if combatant.hasToken then
    others.foldl
      (fun acc x => if x.hasToken then (if dist combatant x < acc then dist combatant x else acc) else acc)
      10000
  else 10000

/-- Model of `urbanjungleCombat.getDistanceTN(distance)`: the fixed distance
breakpoints. -/
def getDistanceTN (distance : ℚ) : Int :=
  if distance ≤ 4 then 2
  else if distance ≤ 12 then 3
  else if distance ≤ 36 then 4
  else if distance ≤ 100 then 5
  else 6

/-- The else-if branch of `getInitiativeTN`: guard
`combatant?.actor && combatant?.token && settings?.initType && allcombatants`,
then the distance-derived threshold; every other path returns 2. -/
def getInitiativeTNBody (dist : Combatant → Combatant → ℚ) (combatant : Option Combatant)
    (allcombatants : Option (List Combatant)) (s : CombatSettings) : ℚ :=
  match combatant, s.initType, allcombatants with
  | some c, some v, some l =>
      if c.hasActor && c.hasToken && v.truthy then
        ((getDistanceTN (getDistanceToClosestOther dist c (otherSideOf c v l)) : Int) : ℚ)
      else 2
  | _, _, _ => 2

/-- Model of `urbanjungleCombat.getInitiativeTN(combatant, allcombatants,
settings)`: a positive `manualTN` wins, otherwise the distance-derived branch,
otherwise the default 2. -/
def getInitiativeTN (dist : Combatant → Combatant → ℚ) (combatant : Option Combatant)
    (allcombatants : Option (List Combatant)) (settings : Option CombatSettings) : ℚ :=
  match settings with
  | some s =>
      match s.manualTN with
      | some m =>
          if 0 < m then m else getInitiativeTNBody dist combatant allcombatants s
      | none => getInitiativeTNBody dist combatant allcombatants s
  | none => 2

/-- Sign of the number a JavaScript comparator returns; `Array.prototype.sort`
orders a pair only when the result is negative or positive, so a `NaN` result
(modelled by `nan`) behaves exactly like zero. -/
inductive SortR where
  | neg
  | zero
  | pos
  | nan
deriving DecidableEq, Repr

/-- Sign of a rational comparator value. -/
def qSign (q : ℚ) : SortR :=
  if q < 0 then SortR.neg else if q = 0 then SortR.zero else SortR.pos

/-- JavaScript `ToNumber` on the id strings that reach the comparator's final
subtraction: the empty string converts to 0, an (unsigned decimal) digit string
to its value, and any other id string — in particular the alphanumeric ids the
host generates — to `NaN` (`none`). -/
def jsToNumber (s : String) : Option ℚ :=
  if s = "" then some 0
  else if s.data.all (fun c => c.isDigit) then
    some ((s.data.foldl (fun n c => 10 * n + (c.toNat - 48)) 0 : Nat) : ℚ)
  else none

/-- The data of a combatant read by `_sortCombatants`: `initiative` (null when
unset), the resolved `token?.actor?.hasPlayerOwner || false` flag, the resolved
`token?.name || ""`, and the `tokenId` string. -/
structure SortCombatant where
  initiative : Option ℚ
  hasPlayerOwner : Bool
  name : String
  tokenId : String
deriving DecidableEq, Repr

/-- Model of `urbanjungleCombat._sortCombatants(a, b)`: initiative descending with
non-numeric initiative as -9999, then the player-owner flag difference, then
`localeCompare` on names (modelled as code-point comparison), then the
subtraction `a.tokenId - b.tokenId`, which on non-numeric id strings is `NaN`. -/
def sortCombatants (a b : SortCombatant) : SortR :=
  let ia : ℚ := match a.initiative with | some q => q | none => -9999
  let ib : ℚ := match b.initiative with | some q => q | none => -9999
  let ci := ib - ia
  if ci ≠ 0 then qSign ci
  else
    let apc : ℚ := if a.hasPlayerOwner then 1 else 0
    let bpc : ℚ := if b.hasPlayerOwner then 1 else 0
    let cpc := bpc - apc
    if cpc ≠ 0 then qSign cpc
    else
      match compare a.name b.name with
      | Ordering.lt => SortR.neg
      | Ordering.gt => SortR.pos
      | Ordering.eq =>
          match jsToNumber a.tokenId, jsToNumber b.tokenId with
          | some x, some y => qSign (x - y)
          | _, _ => SortR.nan

/-- One entry of `CommonConditionInfo.conditionList`. -/
structure ConditionInfo where
  id : String
  label : String
  icon : String
deriving DecidableEq, Repr

/-- The fixed condition catalog `CommonConditionInfo.conditionList`. -/
def conditionList : List ConditionInfo :=
  [⟨"focused", "urbanjungle.effect.status.focused", "icons/svg/upgrade.svg"⟩,
   ⟨"guarding", "urbanjungle.effect.status.guarding", "icons/svg/shield.svg"⟩,
   ⟨"reeling", "urbanjungle.effect.status.reeling", "icons/svg/lightning.svg"⟩,
   ⟨"hurt", "urbanjungle.effect.status.hurt", "icons/svg/acid.svg"⟩,
   ⟨"afraid", "urbanjungle.effect.status.afraid", "systems/urbanjungle/icons/status/afraid.svg"⟩,
   ⟨"injured", "urbanjungle.effect.status.injured", "icons/svg/blood.svg"⟩,
   ⟨"dying", "urbanjungle.effect.status.dying", "systems/urbanjungle/icons/status/dying.svg"⟩,
   ⟨"dead", "urbanjungle.effect.status.dead", "icons/svg/skull.svg"⟩,
   ⟨"overkilled", "urbanjungle.effect.status.overkilled", "systems/urbanjungle/icons/status/overkilled.svg"⟩,
   ⟨"asleep", "urbanjungle.effect.status.asleep", "icons/svg/sleep.svg"⟩,
   ⟨"unconscious", "urbanjungle.effect.status.unconscious", "icons/svg/unconscious.svg"⟩,
   ⟨"burdened", "urbanjungle.effect.status.burdened", "systems/urbanjungle/icons/status/burdened.svg"⟩,
   ⟨"over-burdened", "urbanjungle.effect.status.over-burdened", "systems/urbanjungle/icons/status/overburdened.svg"⟩,
   ⟨"cannotmove", "urbanjungle.effect.status.cannotmove", "systems/urbanjungle/icons/status/cantmove.svg"⟩,
   ⟨"fatigued", "urbanjungle.effect.status.fatigued", "icons/svg/degen.svg"⟩,
   ⟨"sick", "urbanjungle.effect.status.sick", "icons/svg/poison.svg"⟩,
   ⟨"confused", "urbanjungle.effect.status.confused", "icons/svg/daze.svg"⟩,
   ⟨"terrified", "urbanjungle.effect.status.terrified", "systems/urbanjungle/icons/status/terrified.svg"⟩,
   ⟨"enraged", "urbanjungle.effect.status.enraged", "icons/svg/explosion.svg"⟩,
   ⟨"knockdown", "urbanjungle.effect.status.knockdown", "icons/svg/falling.svg"⟩,
   ⟨"berserk", "urbanjungle.effect.status.berserk", "icons/svg/hazard.svg"⟩,
   ⟨"blinded", "urbanjungle.effect.status.blinded", "icons/svg/blind.svg"⟩,
   ⟨"silenced", "urbanjungle.effect.status.silenced", "icons/svg/silenced.svg"⟩,
   ⟨"fulltilt", "urbanjungle.effect.status.fulltilt", "icons/svg/up.svg"⟩,
   ⟨"slowed", "urbanjungle.effect.status.slowed", "icons/svg/down.svg"⟩,
   ⟨"immobilized", "urbanjungle.effect.status.immobilized", "icons/svg/mountain.svg"⟩,
   ⟨"half-buried", "urbanjungle.effect.status.half-buried", "icons/svg/ruins.svg"⟩,
   ⟨"onfire", "urbanjungle.effect.status.onfire", "icons/svg/fire.svg"⟩,
   ⟨"mesmerized", "urbanjungle.effect.status.mesmerized", "icons/svg/ice-aura.svg"⟩,
   ⟨"marionette", "urbanjungle.effect.status.marionette", "icons/svg/paralysis.svg"⟩,
   ⟨"controlled", "urbanjungle.effect.status.controlled", "icons/svg/statue.svg"⟩,
   ⟨"allfours", "urbanjungle.effect.status.allfours", "icons/svg/pawprint.svg"⟩,
   ⟨"flying", "urbanjungle.effect.status.flying", "icons/svg/wing.svg"⟩,
   ⟨"grappled", "urbanjungle.effect.status.grappled", "icons/svg/net.svg"⟩,
   ⟨"hiding", "urbanjungle.effect.status.hiding", "icons/svg/mystery-man.svg"⟩,
   ⟨"misc-a", "urbanjungle.effect.status.misc-a", "icons/svg/eye.svg"⟩,
   ⟨"misc-b", "urbanjungle.effect.status.misc-b", "icons/svg/clockwork.svg"⟩,
   ⟨"misc-c", "urbanjungle.effect.status.misc-c", "icons/svg/castle.svg"⟩,
   ⟨"misc-d", "urbanjungle.effect.status.misc-d", "icons/svg/book.svg"⟩,
   ⟨"misc-e", "urbanjungle.effect.status.misc-e", "icons/svg/coins.svg"⟩,
   ⟨"misc-f", "urbanjungle.effect.status.misc-f", "icons/svg/sound.svg"⟩]

/-- Model of `CommonConditionInfo.getMatchedConditions` on an array argument:
catalog entries whose id the given list includes. -/
def getMatchedConditions (conditions : List String) : List ConditionInfo :=
  conditionList.filter (fun cond => conditions.contains cond.id)

/-- An active effect on an actor, as the condition functions read it: its
`flags.core.statusId` (absent on effects not created from the catalog), its label
and its icon. -/
structure Effect where
  statusId : Option String
  label : String
  icon : String
deriving DecidableEq, Repr

/-- Model of `prepareEffects`: each catalog entry becomes effect-creation data
with the localized label and `flags.core.statusId` set to the catalog id.
`localize` is the host's `game.i18n.localize`. -/
def prepareEffects (localize : String → String) (effects : List ConditionInfo) : List Effect :=
  effects.map (fun e => { statusId := some e.id, label := localize e.label, icon := e.icon })

/-- The test `conditions.includes(effect flags statusId)` used by
`hasConditionsIronclaw` and `removeConditionsIronclaw`; an absent `statusId`
(`undefined`) is never included. -/
def statusMatches (conditions : List String) (x : Effect) : Bool :=
  match x.statusId with
  | some s => conditions.contains s
  | none => false

/-- Model of `hasConditionsIronclaw` in the local (non-CUB) backend: whether any
effect on the actor carries one of the given condition ids. -/
def hasConditionsLocal (conditions : List String) (effects : List Effect) : Bool :=
  effects.any (fun x => statusMatches conditions x)

/-- The `usedconditions` computation of `addConditionsIronclaw` in the local
backend: when some given condition is already present, the given list is filtered
down to the ids no existing effect carries. -/
def usedConditions (conditions : List String) (effects : List Effect) : List String :=
  if hasConditionsLocal conditions effects then
    conditions.filter (fun x => !(effects.any (fun y => y.statusId == some x)))
  else conditions

/-- Model of `addConditionsIronclaw` in the local backend: the actor's effect list
after the call; `createEmbeddedDocuments` is invoked (appending the prepared
effects) only when there is at least one effect to create. -/
def addConditionsLocal (localize : String → String) (conditions : List String)
    (effects : List Effect) : List Effect :=
  if (prepareEffects localize (getMatchedConditions (usedConditions conditions effects))).length > 0 then
    effects ++ prepareEffects localize (getMatchedConditions (usedConditions conditions effects))
  else effects

/-- Model of `removeConditionsIronclaw` in the local backend: the actor's effect
list after the call, paired with whether a delete write was issued
(`deleteEmbeddedDocuments` runs only when some effect matched).  The local branch
of the source never reads `checkfirst`; only the CUB branch does. -/
def removeConditionsLocal (conditions : List String) (effects : List Effect)
    (_checkfirst : Bool) : List Effect × Bool :=
  if (effects.filter (fun v => statusMatches conditions v)).length > 0 then
    (effects.filter (fun v => !(statusMatches conditions v)), true)
  else (effects, false)

/-! Helper lemmas about the loop-shaped definitions. -/

/-- Each `formRoll` loop appends its die size `n` times after the accumulator. -/
lemma pushDice_eq (n size : Nat) (acc : List Nat) :
    pushDice n size acc = acc ++ List.replicate n size := by
  induction n generalizing acc with
  | zero => simp [pushDice]
  | succ m ih =>
      rw [pushDice, ih, List.replicate_succ]
      simp

/-- The tie counter of the results loop counts the faces equal to the target. -/
lemma tnLoop_ties (tni : Nat) (l : List Nat) (s : TNScan) :
    (tnLoop tni s l).ties = s.ties + l.countP (fun f => decide (f = tni)) := by
  induction l generalizing s with
  | nil => simp [tnLoop]
  | cons x rest ih =>
      rw [tnLoop, ih, List.countP_cons]
      by_cases hx : x = tni
      · simp [hx]
        omega
      · simp [hx]

/-- The running maximum of the results loop is at most `n` exactly when the
starting maximum and every face are. -/
lemma tnLoop_highest_le_iff (tni n : Nat) (l : List Nat) (s : TNScan) :
    (tnLoop tni s l).highest ≤ n ↔ s.highest ≤ n ∧ ∀ f ∈ l, f ≤ n := by
  induction l generalizing s with
  | nil => simp [tnLoop]
  | cons x rest ih =>
      rw [tnLoop, ih]
      by_cases hx : x > s.highest
      · simp only [if_pos hx]
        constructor
        · rintro ⟨h1, h2⟩
          exact ⟨le_trans (le_of_lt hx) h1, fun f hf => by
            rcases List.mem_cons.mp hf with rfl | hf
            · exact h1
            · exact h2 f hf⟩
        · rintro ⟨h1, h2⟩
          exact ⟨h2 x (List.mem_cons_self x rest), fun f hf => h2 f (List.mem_cons_of_mem x hf)⟩
      · simp only [if_neg hx]
        push_neg at hx
        constructor
        · rintro ⟨h1, h2⟩
          exact ⟨h1, fun f hf => by
            rcases List.mem_cons.mp hf with rfl | hf
            · exact le_trans hx h1
            · exact h2 f hf⟩
        · rintro ⟨h1, h2⟩
          exact ⟨h1, fun f hf => h2 f (List.mem_cons_of_mem x hf)⟩

/-- Once the `onefound` flag is set, the reroll loop copies every remaining
result as a literal. -/
lemma copyRerollAux_true (l : List (Nat × Nat)) :
    copyRerollAux true l = l.map (fun p => CopyTerm.lit p.2) := by
  induction l with
  | nil => rfl
  | cons p rest ih => cases p with | mk s r => simp [copyRerollAux, ih]

/-- While no face-1 result has been seen, the reroll loop copies results with no
face equal to 1 as literals. -/
lemma copyRerollAux_noone (l : List (Nat × Nat)) (h : ∀ p ∈ l, p.2 ≠ 1) :
    copyRerollAux false l = l.map (fun p => CopyTerm.lit p.2) := by
  induction l with
  | nil => rfl
  | cons p rest ih =>
      cases p with
      | mk s r =>
          have hr : r ≠ 1 := h (s, r) (List.mem_cons_self _ _)
          simp [copyRerollAux, hr, ih (fun q hq => h q (List.mem_cons_of_mem _ hq))]

/-- A combatant list with no tokens leaves the closest-other distance at the
sentinel 10000. -/
lemma closest_no_tokens (dist : Combatant → Combatant → ℚ) (c : Combatant)
    (l : List Combatant) (h : ∀ x ∈ l, x.hasToken = false) :
    getDistanceToClosestOther dist c l = 10000 := by
  unfold getDistanceToClosestOther
  have hfold : ∀ (acc : ℚ), l.foldl
      (fun acc x => if x.hasToken then (if dist c x < acc then dist c x else acc) else acc) acc = acc := by
    induction l with
    | nil => intro acc; rfl
    | cons x rest ih =>
        intro acc
        have hx : x.hasToken = false := h x (List.mem_cons_self _ _)
        rw [List.foldl_cons, hx]
        exact (ih (fun y hy => h y (List.mem_cons_of_mem _ hy))) acc
  split
  · simp [hfold]
  · rfl

/-! Claim theorems. -/

/-- C9: for an empty dice pool (all five die counts zero), both `rollTargetNumber`
and `rollHighest` build an empty roll string and return `null` before rolling or
writing anything. -/
theorem empty_pool_no_roll (tni : Nat) (faces : List Nat) :
    rollTargetNumber tni 0 0 0 0 0 faces = none ∧ rollHighest 0 0 0 0 0 faces = none :=
  ⟨rfl, rfl⟩

/-- C10: `formRoll` emits the die sequence in fixed descending-size order — all
d12 terms first, then all d10, d8, d6, and d4 terms last — for every combination
of die counts. -/
theorem formRoll_descending_order (d12 d10 d8 d6 d4 : Nat) :
    formRoll d12 d10 d8 d6 d4 =
      List.replicate d12 12 ++ List.replicate d10 10 ++ List.replicate d8 8 ++
        List.replicate d6 6 ++ List.replicate d4 4 := by
  simp [formRoll, pushDice_eq, List.append_assoc]

/-- C1 counterexample: a single d6 showing exactly the target number 3 is counted
as a tie but not as a success — the successes field is 0 while the number of
faces that are at least the target is 1, so "success when the face is at least
the target" is false of the code. -/
theorem tn_success_at_threshold_not_counted :
    rollTargetNumber 3 0 0 0 1 0 [3] =
      some { results := [3], highest := 3, tnData := some ⟨0, 1⟩,
             flavor := RollFlavor.tn (TNResult.tie 1), hasOne := false } ∧
    ([3].filter (fun f => decide (3 ≤ f))).length = 1 ∧ (0 : Nat) ≠ 1 := by
  refine ⟨rfl, rfl, by decide⟩

/-- C1 (amended): the successes field counts the faces strictly greater than the
target and the ties field counts the faces equal to the target, over the whole
die sequence. -/
theorem tn_counts_strict_and_tie (tni d12 d10 d8 d6 d4 : Nat) (faces : List Nat)
    (out : DiceReturn) (h : rollTargetNumber tni d12 d10 d8 d6 d4 faces = some out) :
    out.tnData = some ⟨(faces.filter (fun f => decide (tni < f))).length,
      (faces.filter (fun f => decide (f = tni))).length⟩ := by
  simp only [rollTargetNumber] at h
  split at h
  · exact absurd h (by simp)
  · rw [Option.some.injEq] at h
    subst h
    simp only
    rw [countSuccesses, List.countP_eq_length_filter, tnLoop_ties,
      List.countP_eq_length_filter]
    simp

/-- Witness for C1 (amended): a concrete two-die pool against target 3 with faces
4 and 3 yields one success and one tie. -/
theorem tn_counts_strict_and_tie_witness :
    DiceReturn.tnData
        { results := [4, 3], highest := 4, tnData := some ⟨1, 1⟩,
          flavor := RollFlavor.tn (TNResult.success 1), hasOne := false } =
      some ⟨([4, 3].filter (fun f => decide (3 < f))).length,
        ([4, 3].filter (fun f => decide (f = 3))).length⟩ :=
  tn_counts_strict_and_tie 3 0 0 0 2 0 [4, 3] _ rfl

/-- C2 counterexample: two d6 showing 5 and 1 against target 6 give no successes
and no ties; a die shows face 1 (`hasOne` is true), yet the classification built
for the message is "failure", not "botch" — the botch flag the code passes is
`highest == 1`, not "any die shows 1". -/
theorem tn_any_one_not_botch :
    rollTargetNumber 6 0 0 0 2 0 [5, 1] =
      some { results := [5, 1], highest := 5, tnData := some ⟨0, 0⟩,
             flavor := RollFlavor.tn TNResult.failure, hasOne := true } ∧
    RollFlavor.tn TNResult.failure ≠ RollFlavor.tn TNResult.botch :=
  ⟨rfl, by decide⟩

/-- C2 (amended): for a non-empty face sequence of positive faces, the
classification is chosen by the precedence: successes, then botch — where the
botch condition is "every die shows face 1" (equivalently, the highest die is 1),
not "any die shows 1" — then ties, then failure. -/
theorem tn_flavor_botch_is_all_ones (tni d12 d10 d8 d6 d4 : Nat) (faces : List Nat)
    (out : DiceReturn) (h : rollTargetNumber tni d12 d10 d8 d6 d4 faces = some out)
    (hpos : ∀ f ∈ faces, 1 ≤ f) (hne : faces ≠ []) :
    ∃ td, out.tnData = some td ∧
      out.flavor = RollFlavor.tn
        (if 0 < td.successes then TNResult.success td.successes
         else if ∀ f ∈ faces, f = 1 then TNResult.botch
         else if 0 < td.ties then TNResult.tie td.ties
         else TNResult.failure) := by
  simp only [rollTargetNumber] at h
  split at h
  · exact absurd h (by simp)
  · rw [Option.some.injEq] at h
    subst h
    refine ⟨_, rfl, ?_⟩
    simp only
    have hiff : (tnLoop tni ⟨0, 0, false⟩ faces).highest = 1 ↔ ∀ f ∈ faces, f = 1 := by
      constructor
      · intro h1 f hf
        have hle := (tnLoop_highest_le_iff tni 1 faces ⟨0, 0, false⟩).mp (le_of_eq h1)
        exact le_antisymm (hle.2 f hf) (hpos f hf)
      · intro hall
        have hub : (tnLoop tni ⟨0, 0, false⟩ faces).highest ≤ 1 :=
          (tnLoop_highest_le_iff tni 1 faces ⟨0, 0, false⟩).mpr
            ⟨Nat.zero_le 1, fun f hf => le_of_eq (hall f hf)⟩
        have hlb : ¬ (tnLoop tni ⟨0, 0, false⟩ faces).highest ≤ 0 := by
          intro h0
          obtain ⟨f, hf⟩ := List.exists_mem_of_ne_nil faces hne
          have := ((tnLoop_highest_le_iff tni 0 faces ⟨0, 0, false⟩).mp h0).2 f hf
          have := hpos f hf
          omega
        omega
    rw [flavorStringTN]
    by_cases hs : countSuccesses tni faces > 0
    · simp [hs]
    · have hs' : ¬ 0 < countSuccesses tni faces := hs
      by_cases hb : (tnLoop tni ⟨0, 0, false⟩ faces).highest = 1
      · simp [hs, hb]
        exact (if_pos (hiff.mp hb)).symm
      · have : ((tnLoop tni ⟨0, 0, false⟩ faces).highest == 1) = false := by
          simp [hb]
        rw [this]
        simp only [Bool.false_eq_true, if_false, hs', if_false]
        rw [if_neg (fun hall => hb (hiff.mpr hall))]

/-- Witness for C2 (amended): a single d6 showing 1 against target 3 classifies
as a botch. -/
theorem tn_flavor_botch_is_all_ones_witness :
    ∃ td, DiceReturn.tnData
        { results := [1], highest := 1, tnData := some ⟨0, 0⟩,
          flavor := RollFlavor.tn TNResult.botch, hasOne := true } = some td ∧
      RollFlavor.tn TNResult.botch = RollFlavor.tn
        (if 0 < td.successes then TNResult.success td.successes
         else if ∀ f ∈ [1], f = 1 then TNResult.botch
         else if 0 < td.ties then TNResult.tie td.ties
         else TNResult.failure) :=
  tn_flavor_botch_is_all_ones 3 0 0 0 1 0 [1] _ rfl (by decide) (by decide)

/-- C7 counterexample: against target number 1 with a single die showing 1, the
section 4.1 classification (and the roll message itself) is a botch with display
code "B", but the persisted initiative result code is "T" — `rollInitiative`
checks ties before the botch condition, the reverse of the section 4.1 order. -/
theorem initiative_result_tie_before_botch :
    rollTargetNumber 1 0 0 0 1 0 [1] =
      some { results := [1], highest := 1, tnData := some ⟨0, 1⟩,
             flavor := RollFlavor.tn TNResult.botch, hasOne := true } ∧
    initiativeResult (some ⟨0, 1⟩) 1 = "T" ∧
    resultCode (flavorStringTN 0 1 true) = "B" ∧
    ("T" : String) ≠ "B" :=
  ⟨rfl, rfl, rfl, by decide⟩

/-- C7 (amended): the persisted initiative result code follows the precedence
success count, then tie, then botch, then fail; it agrees with the section 4.1
classification except when the tie and botch conditions hold simultaneously
(which requires target number 1 with every die showing 1). -/
theorem initiative_result_precedence (td : TNData) (h : Nat)
    (hov : ¬(td.ties ≠ 0 ∧ h = 1)) :
    initiativeResult (some td) h = resultCode (flavorStringTN td.successes td.ties (h == 1)) := by
  rw [initiativeResult, flavorStringTN]
  by_cases hs : td.successes > 0
  · simp [hs, resultCode]
  · by_cases ht : td.ties ≠ 0
    · have h1 : h ≠ 1 := fun he => hov ⟨ht, he⟩
      have hb : (h == 1) = false := by simp [h1]
      have ht' : (td.ties != 0) = true := by simp [ht]
      rw [hb, ht']
      simp [hs, resultCode, Nat.pos_of_ne_zero ht]
    · push_neg at ht
      by_cases h1 : h = 1
      · simp [hs, ht, h1, resultCode]
      · simp [hs, ht, h1, resultCode]

/-- Witness for C7 (amended): no successes, no ties, highest die 1 — the
persisted code and the section 4.1 classification are both the botch code. -/
theorem initiative_result_precedence_witness :
    initiativeResult (some ⟨0, 0⟩) 1 = resultCode (flavorStringTN 0 0 (1 == 1)) :=
  initiative_result_precedence ⟨0, 0⟩ 1 (by decide)

/-- C4: the reroll-ones copy replaces exactly the first die in sequence order
whose result equals 1 with a fresh die of the same size and keeps every other
result as its literal; when no result equals 1 it coincides with the plain copy
`copyDicePoolResult`. -/
theorem reroll_first_one_only (dice : List (Nat × Nat)) :
    ((∀ p ∈ dice, p.2 ≠ 1) →
      copyRerollHighestOne dice = copyDicePoolResult (dice.map Prod.snd)) ∧
    (∀ pre size post, dice = pre ++ (size, 1) :: post → (∀ p ∈ pre, p.2 ≠ 1) →
      copyRerollHighestOne dice =
        pre.map (fun p => CopyTerm.lit p.2) ++
          CopyTerm.die size :: post.map (fun p => CopyTerm.lit p.2)) := by
  constructor
  · intro h
    rw [copyRerollHighestOne, copyRerollAux_noone dice h, copyDicePoolResult, List.map_map]
    rfl
  · intro pre size post hsplit hpre
    subst hsplit
    rw [copyRerollHighestOne]
    induction pre with
    | nil => simp [copyRerollAux, copyRerollAux_true]
    | cons p rest ih =>
        cases p with
        | mk s r =>
            have hr : r ≠ 1 := hpre (s, r) (List.mem_cons_self _ _)
            simp only [List.cons_append, copyRerollAux, hr]
            rw [if_neg (by simp [hr])]
            simp only [List.map_cons, List.cons_append, List.cons.injEq, true_and]
            exact ih (fun q hq => hpre q (List.mem_cons_of_mem _ hq))

/-- Witness for C4: a pool with no 1s copies unchanged; a pool whose second and
third dice show 1 rerolls only the second die, as a fresh d10. -/
theorem reroll_first_one_only_witness :
    copyRerollHighestOne [(6, 2), (4, 3)] = copyDicePoolResult [2, 3] ∧
    copyRerollHighestOne [(12, 5), (10, 1), (6, 1)] =
      [CopyTerm.lit 5, CopyTerm.die 10, CopyTerm.lit 1] :=
  ⟨(reroll_first_one_only [(6, 2), (4, 3)]).1 (by decide),
   (reroll_first_one_only [(12, 5), (10, 1), (6, 1)]).2 [(12, 5)] 10 [(6, 1)] rfl (by decide)⟩

/-- C3: evaluation of `getInitiativeGroup` over all three sides in the three-side
modes.  In mode 4 the sides map to the three buckets 3, 2, 1; in mode 5 the
source's `side == side == 0` test is always false, so the enemy side and the
allied side both collapse to bucket 1 and bucket 3 is never produced — the
documented three-side table for mode 5 is not implemented. -/
theorem initiative_group_mode5_never_three :
    getInitiativeGroup (some ⟨true, false, true, some 0⟩)
      (some ⟨true, some (JSVal.num 5), false, none⟩) = 1 ∧
    getInitiativeGroup (some ⟨true, true, true, some 0⟩)
      (some ⟨true, some (JSVal.num 5), false, none⟩) = 2 ∧
    getInitiativeGroup (some ⟨true, false, true, some 1⟩)
      (some ⟨true, some (JSVal.num 5), false, none⟩) = 1 ∧
    getInitiativeGroup (some ⟨true, false, true, some 0⟩)
      (some ⟨true, some (JSVal.num 4), false, none⟩) = 1 ∧
    getInitiativeGroup (some ⟨true, true, true, some 0⟩)
      (some ⟨true, some (JSVal.num 4), false, none⟩) = 3 ∧
    getInitiativeGroup (some ⟨true, false, true, some 1⟩)
      (some ⟨true, some (JSVal.num 4), false, none⟩) = 2 ∧
    getInitiativeGroup (some ⟨false, false, true, some 0⟩)
      (some ⟨true, some (JSVal.num 5), false, none⟩) = -1 := by
  refine ⟨rfl, rfl, rfl, rfl, rfl, rfl, rfl⟩

/-- C5: two distinct combatants with equal initiative, equal ownership and equal
token names but different (non-numeric) token id strings compare as `NaN` in both
directions — the final tie-break `a.tokenId - b.tokenId` is a string subtraction,
so `Array.prototype.sort` treats the pair as equal and their relative order
follows the input list order instead of a deterministic total order. -/
theorem sort_tokenid_tiebreak_nan :
    sortCombatants ⟨some 5, true, "Alpha", "aaa"⟩ ⟨some 5, true, "Alpha", "bbb"⟩ = SortR.nan ∧
    sortCombatants ⟨some 5, true, "Alpha", "bbb"⟩ ⟨some 5, true, "Alpha", "aaa"⟩ = SortR.nan ∧
    (⟨some 5, true, "Alpha", "aaa"⟩ : SortCombatant) ≠ ⟨some 5, true, "Alpha", "bbb"⟩ := by
  refine ⟨?_, ?_, by simp⟩ <;>
  · rw [sortCombatants]
    norm_num
    rfl

/-- C6 counterexample: a combatant with actor, token and a truthy initiative type,
whose opposing side is empty (every combatant is on its own side), gets threshold
6, not the default 2 — the closest-other distance stays at the sentinel 10000,
which the breakpoint table maps to 6. -/
theorem initiative_tn_no_opponents_six :
    otherSideOf ⟨true, true, true, some 1⟩ (JSVal.num 2) [⟨true, true, true, some 1⟩] = [] ∧
    getInitiativeTN (fun _ _ => 0) (some ⟨true, true, true, some 1⟩)
      (some [⟨true, true, true, some 1⟩])
      (some ⟨false, some (JSVal.num 2), false, none⟩) = 6 ∧
    (6 : ℚ) ≠ 2 := by
  refine ⟨rfl, ?_, by norm_num⟩
  norm_num [getInitiativeTN, getInitiativeTNBody, otherSideOf, getDistanceToClosestOther,
    getDistanceTN, JSVal.truthy, JSVal.strictEqInt]

/-- C6 (amended): whenever the guard of `getInitiativeTN` fails — the participant
is absent or lacks actor or token data, the settings provide no truthy initiative
type, or no combatant list is given — the threshold defaults to 2; but when the
guard passes and no opposing participant has position data (in particular when
there are no opposing participants at all), the sentinel distance 10000 yields
threshold 6 rather than the default 2. -/
theorem initiative_tn_defaults (dist : Combatant → Combatant → ℚ)
    (combatant : Option Combatant) (allcombatants : Option (List Combatant))
    (s : CombatSettings) (hman : ∀ m, s.manualTN = some m → ¬ (0 : ℚ) < m) :
    ((∀ c, combatant = some c → c.hasActor = false ∨ c.hasToken = false) ∨
      (∀ v, s.initType = some v → v.truthy = false) ∨
      allcombatants = none →
      getInitiativeTN dist combatant allcombatants (some s) = 2) ∧
    (∀ c l v, combatant = some c → allcombatants = some l → s.initType = some v →
      v.truthy = true → c.hasActor = true → c.hasToken = true →
      (∀ x ∈ otherSideOf c v l, x.hasToken = false) →
      getInitiativeTN dist combatant allcombatants (some s) = 6) := by
  have hbase : getInitiativeTN dist combatant allcombatants (some s) =
      getInitiativeTNBody dist combatant allcombatants s := by
    rw [getInitiativeTN]
    cases hm : s.manualTN with
    | none => rfl
    | some m => simp [hman m hm]
  constructor
  · intro hguard
    rw [hbase]
    rcases combatant with _ | c
    · rcases hit : s.initType with _ | v <;> rcases allcombatants with _ | l <;>
        simp [getInitiativeTNBody, hit]
    · rcases hit : s.initType with _ | v
      · rcases allcombatants with _ | l <;> simp [getInitiativeTNBody, hit]
      · rcases allcombatants with _ | l
        · simp [getInitiativeTNBody, hit]
        · rcases hguard with hca | hvt | hnone
          · rcases hca c rfl with hA | hT
            · simp [getInitiativeTNBody, hit, hA]
            · simp [getInitiativeTNBody, hit, hT]
          · simp [getInitiativeTNBody, hit, hvt v hit]
          · exact absurd hnone (by simp)
  · intro c l v hco hl hit htr hac htok hothers
    subst hco
    subst hl
    rw [hbase]
    simp only [getInitiativeTNBody, hit]
    rw [if_pos (by simp [hac, htok, htr])]
    rw [closest_no_tokens dist c (otherSideOf c v l) hothers]
    norm_num [getDistanceTN]

/-- Witness for C6 (amended): with an empty combatant list, a token-less
participant defaults to threshold 2, while a complete participant with no
opponents gets threshold 6. -/
theorem initiative_tn_defaults_witness :
    getInitiativeTN (fun _ _ => 0) (some ⟨true, true, false, none⟩) (some [])
      (some ⟨false, some (JSVal.num 1), false, none⟩) = 2 ∧
    getInitiativeTN (fun _ _ => 0) (some ⟨true, true, true, some 0⟩) (some [])
      (some ⟨false, some (JSVal.num 1), false, none⟩) = 6 :=
  ⟨(initiative_tn_defaults (fun _ _ => 0) (some ⟨true, true, false, none⟩) (some [])
      ⟨false, some (JSVal.num 1), false, none⟩ (by intro m hm; cases hm)).1
      (Or.inl (by intro c hc; cases hc; exact Or.inr rfl)),
   (initiative_tn_defaults (fun _ _ => 0) (some ⟨true, true, true, some 0⟩) (some [])
      ⟨false, some (JSVal.num 1), false, none⟩ (by intro m hm; cases hm)).2
      ⟨true, true, true, some 0⟩ [] (JSVal.num 1) rfl rfl rfl rfl rfl rfl
      (by intro x hx; cases hx)⟩

/-- The includes-test is true exactly when the effect carries a status id among
the given conditions. -/
lemma statusMatches_iff (conditions : List String) (x : Effect) :
    statusMatches conditions x = true ↔ ∃ s, x.statusId = some s ∧ s ∈ conditions := by
  cases hx : x.statusId <;> simp [statusMatches, hx, List.contains]

/-- An effect already on the actor survives `addConditionsIronclaw`. -/
lemma mem_addConditionsLocal_of_mem (localize : String → String) (conditions : List String)
    (effects : List Effect) (e : Effect) (he : e ∈ effects) :
    e ∈ addConditionsLocal localize conditions effects := by
  rw [addConditionsLocal]
  split
  · exact List.mem_append_left _ he
  · exact he

/-- After `addConditionsIronclaw`, every requested catalog condition is carried by
some effect on the actor. -/
lemma addConditionsLocal_creates (localize : String → String) (conditions : List String)
    (effects : List Effect) (ci : ConditionInfo) (hcat : ci ∈ conditionList)
    (hmem : ci.id ∈ conditions) :
    ∃ e ∈ addConditionsLocal localize conditions effects, e.statusId = some ci.id := by
  by_cases hpres : ∃ e ∈ effects, e.statusId = some ci.id
  · obtain ⟨e, he, hid⟩ := hpres
    exact ⟨e, mem_addConditionsLocal_of_mem localize conditions effects e he, hid⟩
  · have hused : ci.id ∈ usedConditions conditions effects := by
      rw [usedConditions]
      split
      · refine List.mem_filter.mpr ⟨hmem, ?_⟩
        simp only [Bool.not_eq_true', List.any_eq_false, beq_iff_eq]
        intro y hy hEq
        exact hpres ⟨y, hy, hEq⟩
      · exact hmem
    have hmatched : ci ∈ getMatchedConditions (usedConditions conditions effects) :=
      List.mem_filter.mpr ⟨hcat, by simp [List.contains, hused]⟩
    have hnew : ({ statusId := some ci.id, label := localize ci.label, icon := ci.icon } : Effect)
        ∈ prepareEffects localize (getMatchedConditions (usedConditions conditions effects)) :=
      List.mem_map.mpr ⟨ci, hmatched, rfl⟩
    refine ⟨{ statusId := some ci.id, label := localize ci.label, icon := ci.icon }, ?_, rfl⟩
    rw [addConditionsLocal,
      if_pos (List.length_pos.mpr (List.ne_nil_of_mem hnew))]
    exact List.mem_append_right _ hnew

/-- C8: `addConditionsIronclaw` is idempotent on the actor's effect list — a
second application with the same conditions creates nothing, because every
requested catalog condition is already present — and `removeConditionsIronclaw`
issues no delete write when none of the given conditions are present. -/
theorem conditions_idempotent (localize : String → String) (conditions : List String)
    (effects : List Effect) (checkfirst : Bool) :
    addConditionsLocal localize conditions (addConditionsLocal localize conditions effects) =
      addConditionsLocal localize conditions effects ∧
    (hasConditionsLocal conditions effects = false →
      removeConditionsLocal conditions effects checkfirst = (effects, false)) := by
  constructor
  · set A := addConditionsLocal localize conditions effects with hA
    have hkey : ∀ ci ∈ conditionList, ci.id ∈ conditions → ∃ e ∈ A, e.statusId = some ci.id :=
      fun ci hcat hmem => addConditionsLocal_creates localize conditions effects ci hcat hmem
    have hempty : getMatchedConditions (usedConditions conditions A) = [] := by
      rw [getMatchedConditions, List.filter_eq_nil_iff]
      intro ci hcat hcontains
      have hmemused : ci.id ∈ usedConditions conditions A := by
        simpa [List.contains] using hcontains
      rw [usedConditions] at hmemused
      by_cases hhas : hasConditionsLocal conditions A = true
      · rw [if_pos hhas] at hmemused
        obtain ⟨hmc, hnone⟩ := List.mem_filter.mp hmemused
        obtain ⟨e, heA, hid⟩ := hkey ci hcat hmc
        simp only [Bool.not_eq_true', List.any_eq_false, beq_iff_eq] at hnone
        exact hnone e heA hid
      · rw [if_neg hhas] at hmemused
        obtain ⟨e, heA, hid⟩ := hkey ci hcat hmemused
        apply hhas
        rw [hasConditionsLocal, List.any_eq_true]
        exact ⟨e, heA, (statusMatches_iff conditions e).mpr ⟨ci.id, hid, hmemused⟩⟩
    rw [addConditionsLocal, hempty]
    simp [prepareEffects]
  · intro hno
    rw [removeConditionsLocal]
    have hnil : effects.filter (fun v => statusMatches conditions v) = [] := by
      rw [List.filter_eq_nil_iff]
      intro e he hp
      have : hasConditionsLocal conditions effects = true :=
        List.any_eq_true.mpr ⟨e, he, hp⟩
      rw [hno] at this
      exact Bool.noConfusion this
    rw [hnil]
    simp

/-- Witness for C8: adding the "hurt" condition twice to an empty actor equals
adding it once, and removing it from an empty actor performs no write. -/
theorem conditions_idempotent_witness :
    addConditionsLocal id ["hurt"] (addConditionsLocal id ["hurt"] []) =
      addConditionsLocal id ["hurt"] [] ∧
    removeConditionsLocal ["hurt"] [] true = ([], false) :=
  ⟨(conditions_idempotent id ["hurt"] [] true).1,
   (conditions_idempotent id ["hurt"] [] true).2 rfl⟩
